import Mathlib

/-!
Verification of the diff-position resolution engine of
`pr_agent/git_providers/gitlab_provider.py`.

The Python source is shallowly embedded: strings are Lean `String`s,
Python lists are Lean `List`s, Python `None`-able values are `Option`s,
and code that can raise is `Except PyError`-valued.  Loops with `break`
and mutable counters become structural recursions carrying the counters.
-/

set_option maxRecDepth 4000

/-- Errors a Python run of the embedded code can raise. -/
inductive PyError where
  /-- `IndexError`, from `s[0]` on an empty string or out-of-range list index. -/
  | indexError
  /-- `UnboundLocalError`, from reading a local never assigned on the taken path. -/
  | unboundLocal
  /-- `TypeError`, e.g. arithmetic on `None`. -/
  | typeError
  /-- `AttributeError`, e.g. attribute access on `None`. -/
  | attributeError
  /-- The spec's `NotFoundError` (named here only so its absence can be stated). -/
  | notFoundError
deriving Repr, DecidableEq

/-- `pat` is a prefix of the character list (models Python `str.startswith`). -/
def listStarts : List Char → List Char → Bool
  | [], _ => true
  | _ :: _, [] => false
  | p :: ps, c :: cs => p = c && listStarts ps cs

/-- `needle` occurs contiguously inside `hay` (models Python `sub in s`). -/
def listHas (needle hay : List Char) : Bool :=
  match hay with
  | [] => needle.isEmpty
  | _ :: t => listStarts needle hay || listHas needle t

/-- Python `line.startswith(pat)`. -/
def pyStarts (pat line : String) : Bool :=
  listStarts pat.data line.data

/-- Python `sub in line` (substring containment). -/
def pyIn (sub line : String) : Bool :=
  listHas sub.data line.data

/-- Characters stripped by Python `str.lstrip()` with no argument. -/
def pyIsSpace (c : Char) : Bool :=
  c = ' ' || c = '\t' || c = '\n' || c = '\r' || c = '\x0b' || c = '\x0c'

/-- Python `s.lstrip()` on a character list. -/
def pyLstripChars (cs : List Char) : List Char :=
  cs.dropWhile pyIsSpace

/-- Split a character list at newline characters (every piece kept). -/
def breakLines : List Char → List (List Char)
  | [] => [[]]
  | c :: cs =>
    if c = '\n' then [] :: breakLines cs
    else
      match breakLines cs with
      | [] => [[c]]
      | l :: ls => (c :: l) :: ls

/-- Python `s.splitlines()` restricted to `'\n'` terminators (the only
line boundary occurring in the unified-diff patches the code consumes):
empty string gives `[]`, and a trailing newline produces no empty tail. -/
def pySplitlines (s : String) : List String :=
  match s.data with
  | [] => []
  | cs =>
    let parts := (breakLines cs).map String.mk
    if cs.getLast? = some '\n' then parts.dropLast else parts

/-- Numeric value of a run of decimal digits. -/
def natOfDigits (ds : List Char) : Nat :=
  ds.foldl (fun acc c => acc * 10 + (c.toNat - 48)) 0

/-- Consume a literal character sequence, returning the rest on success. -/
def dropLit : List Char → List Char → Option (List Char)
  | [], cs => some cs
  | _ :: _, [] => none
  | p :: ps, c :: cs => if c = p then dropLit ps cs else none

/-- Split off a maximal run of leading decimal digits. -/
def takeDigits (cs : List Char) : List Char × List Char :=
  (cs.takeWhile Char.isDigit, cs.dropWhile Char.isDigit)

/-- Worker for `pyReplace`: in mode `skip = 0` scan for the pattern and, on a
match, emit the replacement and skip the matched characters; `skip > 0`
consumes the remainder of a match already emitted. -/
def pyReplaceAux (pat rep : List Char) : Nat → List Char → List Char
  | _, [] => []
  | 0, c :: t =>
    if listStarts pat (c :: t) ∧ pat ≠ [] then
      rep ++ pyReplaceAux pat rep (pat.length - 1) t
    else
      c :: pyReplaceAux pat rep 0 t
  | skip + 1, _ :: t => pyReplaceAux pat rep skip t

/-- Python `body.replace(pat, rep)` on character lists, for the nonempty
patterns the source uses: replaces non-overlapping occurrences left to right. -/
def pyReplace (s pat rep : List Char) : List Char :=
  pyReplaceAux pat rep 0 s

/-- Python `body.replace(pat, rep)` on strings. -/
def pyReplaceS (s pat rep : String) : String :=
  ⟨pyReplace s.data pat.data rep.data⟩

/-- Python list indexing `l[i]` with an `int` index: negative indices count
from the end, out-of-range raises `IndexError`. -/
def pyListGet (l : List String) (i : Int) : Except PyError String :=
  let n : Int := Int.ofNat l.length
  let j : Int := if i < 0 then i + n else i
  if 0 ≤ j ∧ j < n then .ok (l.getD j.toNat "") else .error .indexError

/-- Modelled from the spec: `EDIT_TYPE` is imported from `git_provider.py`,
which is not part of this tree; §3 gives the enum
{added, deleted, renamed, modified}. -/
inductive EDIT_TYPE where
  | ADDED
  | DELETED
  | RENAMED
  | MODIFIED
deriving Repr, DecidableEq

/-- Modelled from the spec: `FilePatchInfo` is imported from
`git_provider.py`, which is not part of this tree; §3's FileDiff gives its
fields {old_content, new_content, patch_text, new_path, edit_type,
old_path (nullable, null unless renamed)}, matching the construction
`FilePatchInfo(original_file_content_str, new_file_content_str,
diff['diff'], diff['new_path'], edit_type=..., old_filename=...)` and the
attribute reads `.patch`, `.filename`, `.old_filename`, `.head_file`
in `gitlab_provider.py`. -/
structure FilePatchInfo where
  base_file : String
  head_file : String
  patch : String
  filename : String
  edit_type : EDIT_TYPE
  old_filename : Option String
deriving Repr, DecidableEq

/-- The three commit ids of `self.last_diff` used by `send_inline_comment`. -/
structure LastDiff where
  base_commit_sha : String
  start_commit_sha : String
  head_commit_sha : String
deriving Repr, DecidableEq

/-- The `pos_obj` dictionary built by `send_inline_comment`; `old_line` /
`new_line` are `none` when the corresponding key is absent. -/
structure Position where
  position_type : String
  new_path : String
  old_path : String
  base_sha : String
  start_sha : String
  head_sha : String
  old_line : Option Int
  new_line : Option Int
deriving Repr, DecidableEq

/-- The argument of `self.mr.discussions.create` in `send_inline_comment`. -/
structure DiscussionPayload where
  body : String
  position : Position
deriving Repr, DecidableEq

/-- One element of the `code_suggestions` list consumed by
`publish_code_suggestions` (the four dictionary keys it reads). -/
structure Suggestion where
  body : String
  relevant_file : String
  relevant_lines_start : Int
  relevant_lines_end : Int
deriving Repr, DecidableEq

/-- The counters-and-classification part of `find_in_file`'s return value. -/
structure LocateResult where
  editType : String
  found : Bool
  sourceLineNo : Nat
  targetLineNo : Nat
deriving Repr, DecidableEq

/-- The full 5-tuple `edit_type, found, source_line_no, target_file,
target_line_no` returned by `find_in_file` and `search_line`. -/
structure FindResult where
  editType : String
  found : Bool
  sourceLineNo : Nat
  targetFile : FilePatchInfo
  targetLineNo : Nat
deriving Repr, DecidableEq

/-- `RE_HUNK_HEADER.match(line)` for
`^@@ -(\d+)(?:,(\d+))? \+(\d+)(?:,(\d+))? @@[ ]?(.*)`, reduced to the two
groups the source reads (`start_old`, `start_new`).  The optional
comma-groups and the trailing `@@[ ]?(.*)` are parsed exactly as the
regex does; `none` models a failed match. -/
def parseHunkHeader (line : String) : Option (Nat × Nat) :=
  match dropLit "@@ -".data line.data with
  | none => none
  | some cs =>
    let p1 := takeDigits cs
    if p1.1.isEmpty then none else
    let cs2 :=
      match p1.2 with
      | ',' :: rest =>
        let p2 := takeDigits rest
        if p2.1.isEmpty then ',' :: rest else p2.2
      | other => other
    match dropLit " +".data cs2 with
    | none => none
    | some cs3 =>
      let p3 := takeDigits cs3
      if p3.1.isEmpty then none else
      let cs4 :=
        match p3.2 with
        | ',' :: rest =>
          let p4 := takeDigits rest
          if p4.1.isEmpty then ',' :: rest else p4.2
        | other => other
      match dropLit " @@".data cs4 with
      | none => none
      | some _ => some (natOfDigits p1.1, natOfDigits p3.1)

/-- `get_edit_type(relevant_line_in_file)`: classify by the first character;
`relevant_line_in_file[0]` raises `IndexError` on an empty string. -/
def getEditType (line : String) : Except PyError String :=
  match line.data with
  | [] => .error .indexError
  | c :: _ =>
    .ok (if c = '-' then "deletion" else if c = '+' then "addition" else "context")

/-- The `elif relevant_line_in_file[0] == '+' and
relevant_line_in_file[1:].lstrip() in line` test of `find_in_file`. -/
def fallbackApplies (ref line : String) : Bool :=
  match ref.data with
  | '+' :: rest => listHas (pyLstripChars rest) line.data
  | _ => false

/-- The `for line in patch_lines` loop of `find_in_file`, carrying
`edit_type`, `source_line_no` and `target_line_no`; `break` is a return. -/
def findLoop (ref : String) : List String → String → Nat → Nat → Except PyError LocateResult
  | [], editType, s, t =>
    .ok { editType := editType, found := false, sourceLineNo := s, targetLineNo := t }
  | line :: rest, editType, s, t =>
    if pyStarts "@@" line then
      match parseHunkHeader line with
      | none => findLoop ref rest editType s t
      | some starts => findLoop ref rest editType starts.1 starts.2
    else
      let st :=
        if pyStarts "-" line then (s + 1, t)
        else if pyStarts "+" line then (s, t + 1)
        else if pyStarts " " line then (s + 1, t + 1)
        else (s, t)
      if pyIn ref line then
        match getEditType line with
        | .error e => .error e
        | .ok et =>
          .ok { editType := et, found := true, sourceLineNo := st.1, targetLineNo := st.2 }
      else if fallbackApplies ref line then
        match getEditType line with
        | .error e => .error e
        | .ok et =>
          .ok { editType := et, found := true, sourceLineNo := st.1, targetLineNo := st.2 }
      else findLoop ref rest editType st.1 st.2

/-- `find_in_file(file, relevant_line_in_file)` (the spec's `locate`). -/
def findInFile (file : FilePatchInfo) (relevantLine : String) : Except PyError FindResult :=
  match findLoop relevantLine (pySplitlines file.patch) "context" 0 0 with
  | .error e => .error e
  | .ok r =>
    .ok { editType := r.editType, found := r.found, sourceLineNo := r.sourceLineNo,
          targetFile := file, targetLineNo := r.targetLineNo }

/-- The `for file in self.diff_files` loop of `search_line`: every file whose
`filename` equals `relevant_file` overwrites the result tuple; `none` models
the tuple's locals never having been assigned. -/
def searchLoop (relevantFile relevantLine : String) :
    List FilePatchInfo → Option FindResult → Except PyError (Option FindResult)
  | [], acc => .ok acc
  | f :: rest, acc =>
    if f.filename = relevantFile then
      match findInFile f relevantLine with
      | .error e => .error e
      | .ok r => searchLoop relevantFile relevantLine rest (some r)
    else searchLoop relevantFile relevantLine rest acc

/-- `search_line(relevant_file, relevant_line_in_file)`: `get_edit_type` runs
first (it can raise on an empty reference); if no file matched, the
`return` statement reads the never-assigned locals `found`,
`source_line_no`, `target_line_no` and raises `UnboundLocalError`. -/
def searchLine (diffFiles : List FilePatchInfo) (relevantFile relevantLine : String) :
    Except PyError FindResult :=
  match getEditType relevantLine with
  | .error e => .error e
  | .ok _ =>
    match searchLoop relevantFile relevantLine diffFiles none with
    | .error e => .error e
    | .ok none => .error .unboundLocal
    | .ok (some r) => .ok r

/-- `send_inline_comment(body, edit_type, found, ..., source_line_no,
target_file, target_line_no)`: when `found` is falsy it only logs; otherwise
it builds `pos_obj` and calls `self.mr.discussions.create`, whose payload is
returned.  `source_line_no` is `Option` because `publish_code_suggestions`
passes `None`; `None - 1` would raise `TypeError`. -/
def sendInlineComment (lastDiff : LastDiff) (body editType : String) (found : Bool)
    (sourceLineNo : Option Int) (targetFile : FilePatchInfo) (targetLineNo : Int) :
    Except PyError (Option DiscussionPayload) :=
  if !found then .ok none
  else
    let oldPath :=
      match targetFile.old_filename with
      | some o => if o = "" then targetFile.filename else o
      | none => targetFile.filename
    let basePos : Position :=
      { position_type := "text", new_path := targetFile.filename, old_path := oldPath,
        base_sha := lastDiff.base_commit_sha, start_sha := lastDiff.start_commit_sha,
        head_sha := lastDiff.head_commit_sha, old_line := none, new_line := none }
    if editType = "deletion" then
      match sourceLineNo with
      | none => .error .typeError
      | some src =>
        .ok (some { body := body, position := { basePos with old_line := some (src - 1) } })
    else if editType = "addition" then
      .ok (some { body := body, position := { basePos with new_line := some (targetLineNo - 1) } })
    else
      match sourceLineNo with
      | none => .error .typeError
      | some src =>
        .ok (some { body := body, position :=
          { basePos with old_line := some (src - 1), new_line := some (targetLineNo - 1) } })

/-- The `edit_type` computation of `get_diff_files` (lines 75-81), the
spec's `classify_file`: `MODIFIED` overwritten by the
`if new_file / elif deleted_file / elif renamed_file` chain. -/
def classifyFile (new_file deleted_file renamed_file : Bool) : EDIT_TYPE :=
  if new_file then .ADDED
  else if deleted_file then .DELETED
  else if renamed_file then .RENAMED
  else .MODIFIED

/-- The body of the `for suggestion in code_suggestions` loop of
`publish_code_suggestions`, without the enclosing `try`: read the four keys,
find the first diff file with the requested filename (`break`), rewrite the
suggestion marker, index into the head file's lines (only for the log
message, but it can raise), then send with `found=True`,
`edit_type='addition'`, `source_line_no=None`,
`target_line_no=relevant_lines_start + 1`.  `target_file` stays `None` when
no filename matches, so `target_file.head_file` raises `AttributeError`. -/
def processSuggestion (lastDiff : LastDiff) (diffFiles : List FilePatchInfo)
    (sug : Suggestion) : Except PyError (Option DiscussionPayload) :=
  match diffFiles.find? (fun file => file.filename = sug.relevant_file) with
  | none => .error .attributeError
  | some targetFile =>
    match pyListGet (pySplitlines targetFile.head_file) (sug.relevant_lines_start - 1) with
    | .error e => .error e
    | .ok _relevantLineInFile =>
      sendInlineComment lastDiff
        (pyReplaceS sug.body "```suggestion"
          ("```suggestion:-0+" ++
            toString (sug.relevant_lines_end - sug.relevant_lines_start)))
        "addition" true none targetFile (sug.relevant_lines_start + 1)

/-- The per-iteration outcome of `publish_code_suggestions`: either the loop
body ran to completion (`done`, carrying what was published, if anything) or
its exception was caught by the `except` clause and logged. -/
inductive ItemOutcome where
  | done (payload : Option DiscussionPayload)
  | errorLogged (e : PyError)
deriving Repr, DecidableEq

/-- `publish_code_suggestions(code_suggestions)`: each suggestion is processed
inside `try/except Exception`, so an exception becomes a logged outcome and
the loop moves on to the next suggestion. -/
def publishCodeSuggestions (lastDiff : LastDiff) (diffFiles : List FilePatchInfo) :
    List Suggestion → List ItemOutcome
  | [] => []
  | sug :: rest =>
    (match processSuggestion lastDiff diffFiles sug with
     | .error e => ItemOutcome.errorLogged e
     | .ok r => ItemOutcome.done r) :: publishCodeSuggestions lastDiff diffFiles rest

deriving instance DecidableEq for Except

/-- The concrete patch of spec §8. -/
def patch8 : String :=
  "@@ -1,3 +1,4 @@\n context1\n-old line\n+new line A\n+new line B\n context2"

/-- A catalog entry carrying the §8 patch. -/
def file8 : FilePatchInfo :=
  { base_file := "context1\nold line\ncontext2",
    head_file := "context1\nnew line A\nnew line B\ncontext2",
    patch := patch8, filename := "a.py", edit_type := .MODIFIED, old_filename := none }

/-- Commit ids used by the concrete scenarios. -/
def lastDiff8 : LastDiff :=
  { base_commit_sha := "base", start_commit_sha := "start", head_commit_sha := "head" }

/-- A file whose whole patch is one line with no diff sigil and no hunk header. -/
def otherLineFile : FilePatchInfo :=
  { base_file := "", head_file := "", patch := "xx reference yy", filename := "o.py",
    edit_type := .MODIFIED, old_filename := none }

/-- A file whose first content line contains only the stripped form of the
reference `"+foo"` and whose second content line contains it in full. -/
def fallbackFile : FilePatchInfo :=
  { base_file := "", head_file := "", patch := "@@ -1 +1 @@\n foo bar\n+foo",
    filename := "fb.py", edit_type := .MODIFIED, old_filename := none }

/-- First of two catalog entries sharing the path `"a.py"` (empty patch). -/
def dupFirst : FilePatchInfo :=
  { base_file := "", head_file := "", patch := "", filename := "a.py",
    edit_type := .MODIFIED, old_filename := none }

/-- Second of two catalog entries sharing the path `"a.py"`. -/
def dupLast : FilePatchInfo :=
  { base_file := "", head_file := "", patch := "@@ -1 +1 @@\n x", filename := "a.py",
    edit_type := .MODIFIED, old_filename := none }

/-- First of two catalog entries sharing the path `"w.py"` (empty patch). -/
def dupFirstW : FilePatchInfo :=
  { base_file := "", head_file := "", patch := "", filename := "w.py",
    edit_type := .MODIFIED, old_filename := none }

/-- A catalog entry whose patch adds the line `q`, for exercising `search_line`. -/
def dupWitnessFile : FilePatchInfo :=
  { base_file := "", head_file := "", patch := "@@ -1 +1 @@\n+q", filename := "w.py",
    edit_type := .MODIFIED, old_filename := none }

/-- A reviewable file backing a code suggestion. -/
def suggestionFile : FilePatchInfo :=
  { base_file := "", head_file := "line1\nline2", patch := "", filename := "f.py",
    edit_type := .MODIFIED, old_filename := none }

/-- A code suggestion targeting lines 1-3 of `suggestionFile`. -/
def suggestion10 : Suggestion :=
  { body := "```suggestion\nfix", relevant_file := "f.py",
    relevant_lines_start := 1, relevant_lines_end := 3 }

/-- The position of the discussion published for `suggestion10`. -/
def position10 : Position :=
  { position_type := "text", new_path := "f.py", old_path := "f.py",
    base_sha := "base", start_sha := "start", head_sha := "head",
    old_line := none, new_line := some 1 }

/-- The discussion published for `suggestion10`. -/
def payload10 : DiscussionPayload :=
  { body := "```suggestion:-0+2\nfix", position := position10 }

/-- A suggestion naming a file absent from the catalog, so processing raises. -/
def badSuggestion : Suggestion :=
  { body := "b", relevant_file := "missing.py",
    relevant_lines_start := 1, relevant_lines_end := 2 }

/-- The position built for the §8 addition match (target line 3). -/
def position8 : Position :=
  { position_type := "text", new_path := "a.py", old_path := "a.py",
    base_sha := "base", start_sha := "start", head_sha := "head",
    old_line := none, new_line := some 2 }

/-- The discussion payload built for the §8 addition match. -/
def payload8 : DiscussionPayload :=
  { body := "body", position := position8 }

/-- C1 counterexample: on the §8 patch, `find_in_file` records the
post-increment counter, so the reference `"old line"` yields source line 3
(the claim states 2) and `"context1"` yields old/new line 2 (the claim
states 1 and 1). -/
theorem claim_c1_counterexample :
    findInFile file8 "old line" =
      Except.ok { editType := "deletion", found := true, sourceLineNo := 3,
                  targetFile := file8, targetLineNo := 2 } ∧
    (3 : Nat) ≠ 2 ∧
    findInFile file8 "context1" =
      Except.ok { editType := "context", found := true, sourceLineNo := 2,
                  targetFile := file8, targetLineNo := 2 } ∧
    (2 : Nat) ≠ 1 := by
  exact ⟨by decide, by decide, by decide, by decide⟩

/-- C1 (amended): on the §8 patch, `find_in_file` returns, for
`"new line A"`: found, addition, new line 3; for `"old line"`: found,
deletion, old line 3; for `"context1"`: found, context, old line 2 and
new line 2; and for `"missing text"`: not found. -/
theorem claim_c1_amended :
    findInFile file8 "new line A" =
      Except.ok { editType := "addition", found := true, sourceLineNo := 3,
                  targetFile := file8, targetLineNo := 3 } ∧
    findInFile file8 "old line" =
      Except.ok { editType := "deletion", found := true, sourceLineNo := 3,
                  targetFile := file8, targetLineNo := 2 } ∧
    findInFile file8 "context1" =
      Except.ok { editType := "context", found := true, sourceLineNo := 2,
                  targetFile := file8, targetLineNo := 2 } ∧
    findInFile file8 "missing text" =
      Except.ok { editType := "context", found := false, sourceLineNo := 4,
                  targetFile := file8, targetLineNo := 5 } := by
  exact ⟨by decide, by decide, by decide, by decide⟩

/-- C2 counterexample: a patch consisting of the single unclassified line
`"xx reference yy"` (leading character `x`, not a hunk header) is matched by
`find_in_file` for the reference `"reference"` — the claim says lines
classified `other` never match. -/
theorem claim_c2_counterexample :
    findInFile otherLineFile "reference" =
      Except.ok { editType := "context", found := true, sourceLineNo := 0,
                  targetFile := otherLineFile, targetLineNo := 0 } := by
  decide

/-- C2 (amended): a patch line whose leading character is none of
`-`, `+`, ` ` and which is not a hunk header never changes the old/new
counters, but unless it starts with `@@` (in which case it is skipped
entirely) it is still tested for containment and can be returned as the
matched line. -/
theorem claim_c2_amended (ref line : String) (rest : List String)
    (editType : String) (s t : Nat)
    (hminus : pyStarts "-" line = false) (hplus : pyStarts "+" line = false)
    (hspace : pyStarts " " line = false) (hheader : parseHunkHeader line = none) :
    findLoop ref (line :: rest) editType s t =
      if pyStarts "@@" line then findLoop ref rest editType s t
      else if pyIn ref line || fallbackApplies ref line then
        (match getEditType line with
         | .error e => .error e
         | .ok et => .ok { editType := et, found := true, sourceLineNo := s, targetLineNo := t })
      else findLoop ref rest editType s t := by
  cases hq : pyStarts "@@" line with
  | true => simp [findLoop, hq, hheader]
  | false =>
    cases hin : pyIn ref line <;> cases hfb : fallbackApplies ref line <;>
      simp [findLoop, hq, hminus, hplus, hspace, hin, hfb]

/-- C2 witness: the amended step property at the unclassified line `"zz"`. -/
theorem claim_c2_witness :
    pyStarts "-" "zz" = false ∧ pyStarts "+" "zz" = false ∧
    pyStarts " " "zz" = false ∧ parseHunkHeader "zz" = none ∧
    (findLoop "x" ["zz"] "context" 5 7 =
      if pyStarts "@@" "zz" then findLoop "x" [] "context" 5 7
      else if pyIn "x" "zz" || fallbackApplies "x" "zz" then
        (match getEditType "zz" with
         | .error e => .error e
         | .ok et => .ok { editType := et, found := true, sourceLineNo := 5, targetLineNo := 7 })
      else findLoop "x" [] "context" 5 7) :=
  ⟨by decide, by decide, by decide, by decide,
    claim_c2_amended "x" "zz" [] "context" 5 7 (by decide) (by decide) (by decide) (by decide)⟩

/-- C9 (confirmed): the file edit-type classification of `get_diff_files`
applies the precedence added > deleted > renamed > modified, and in
particular the conflicting flags (true, true, true) yield `ADDED`. -/
theorem claim_c9 (deleted_file renamed_file : Bool) :
    classifyFile true deleted_file renamed_file = EDIT_TYPE.ADDED ∧
    classifyFile false true renamed_file = EDIT_TYPE.DELETED ∧
    classifyFile false false true = EDIT_TYPE.RENAMED ∧
    classifyFile false false false = EDIT_TYPE.MODIFIED ∧
    classifyFile true true true = EDIT_TYPE.ADDED := by
  simp [classifyFile]

/-- C3 counterexample: with reference `"+foo"`, the second content line of
`fallbackFile` contains the full reference while the first contains only the
stripped form, yet `find_in_file` matches the first line (edit type context,
counters 2/2) — the fallback is not a second scan performed only when no line
contains the full reference. -/
theorem claim_c3_counterexample :
    findInFile fallbackFile "+foo" =
      Except.ok { editType := "context", found := true, sourceLineNo := 2,
                  targetFile := fallbackFile, targetLineNo := 2 } ∧
    pyIn "+foo" "+foo" = true ∧
    pyIn "+foo" " foo bar" = false ∧
    "context" ≠ "addition" := by
  exact ⟨by decide, by decide, by decide, by decide⟩

/-- C3 (amended): the fallback is applied per line within the single scan:
each line is tested first for the full reference and then (when the
reference starts with `+`) for its stripped form, and the scan stops at the
first line passing either test — whatever comes after that line, including a
later line containing the full reference, cannot change the outcome. -/
theorem claim_c3_amended (ref l : String) (rest : List String) (et : String)
    (hl0 : pyStarts "@@" l = false)
    (hl1 : pyIn ref l = true ∨ fallbackApplies ref l = true)
    (het : getEditType l = .ok et) :
    ∀ pre : List String,
      (∀ p ∈ pre, pyStarts "@@" p = true ∨
        (pyIn ref p = false ∧ fallbackApplies ref p = false)) →
      ∀ (e0 : String) (s0 t0 : Nat),
        findLoop ref (pre ++ l :: rest) e0 s0 t0 = findLoop ref (pre ++ [l]) e0 s0 t0 ∧
        ∃ s t, findLoop ref (pre ++ l :: rest) e0 s0 t0 =
          .ok { editType := et, found := true, sourceLineNo := s, targetLineNo := t } := by
  have key : ∀ (r2 : List String) (e0 : String) (s0 t0 : Nat),
      findLoop ref (l :: r2) e0 s0 t0 =
        .ok { editType := et, found := true,
              sourceLineNo := (if pyStarts "-" l = true then (s0 + 1, t0)
                else if pyStarts "+" l = true then (s0, t0 + 1)
                else if pyStarts " " l = true then (s0 + 1, t0 + 1) else (s0, t0)).1,
              targetLineNo := (if pyStarts "-" l = true then (s0 + 1, t0)
                else if pyStarts "+" l = true then (s0, t0 + 1)
                else if pyStarts " " l = true then (s0 + 1, t0 + 1) else (s0, t0)).2 } := by
    intro r2 e0 s0 t0
    rcases hl1 with hin | hfb
    · simp [findLoop, hl0, hin, het]
    · cases hin : pyIn ref l with
      | true => simp [findLoop, hl0, hin, het]
      | false => simp [findLoop, hl0, hin, hfb, het]
  intro pre
  induction pre with
  | nil =>
    intro _ e0 s0 t0
    simp only [List.nil_append]
    exact ⟨by rw [key rest, key []], ⟨_, _, key rest e0 s0 t0⟩⟩
  | cons p ps ih =>
    intro hpre e0 s0 t0
    have hps : ∀ q ∈ ps, pyStarts "@@" q = true ∨
        (pyIn ref q = false ∧ fallbackApplies ref q = false) :=
      fun q hq => hpre q (List.mem_cons_of_mem _ hq)
    have hp := hpre p (List.mem_cons_self _ _)
    simp only [List.cons_append]
    rcases hp with hq | ⟨hin, hfb⟩
    · cases hph : parseHunkHeader p with
      | none => simpa [findLoop, hq, hph] using ih hps e0 s0 t0
      | some starts => simpa [findLoop, hq, hph] using ih hps e0 starts.1 starts.2
    · cases hq : pyStarts "@@" p with
      | true =>
        cases hph : parseHunkHeader p with
        | none => simpa [findLoop, hq, hph] using ih hps e0 s0 t0
        | some starts => simpa [findLoop, hq, hph] using ih hps e0 starts.1 starts.2
      | false =>
        have hnext := ih hps e0
          (if pyStarts "-" p = true then (s0 + 1, t0)
            else if pyStarts "+" p = true then (s0, t0 + 1)
            else if pyStarts " " p = true then (s0 + 1, t0 + 1) else (s0, t0)).1
          (if pyStarts "-" p = true then (s0 + 1, t0)
            else if pyStarts "+" p = true then (s0, t0 + 1)
            else if pyStarts " " p = true then (s0 + 1, t0 + 1) else (s0, t0)).2
        simpa [findLoop, hq, hin, hfb] using hnext

/-- C3 witness: the amended scan property instantiated at the line
`" foo bar"` (matched through the stripped reference `"foo"`) followed by a
line containing the full reference `"+foo"`. -/
theorem claim_c3_witness :
    pyStarts "@@" " foo bar" = false ∧
    fallbackApplies "+foo" " foo bar" = true ∧
    getEditType " foo bar" = .ok "context" ∧
    (findLoop "+foo" ([] ++ " foo bar" :: ["+foo"]) "context" 1 1 =
        findLoop "+foo" ([] ++ [" foo bar"]) "context" 1 1 ∧
      ∃ s t, findLoop "+foo" ([] ++ " foo bar" :: ["+foo"]) "context" 1 1 =
        .ok { editType := "context", found := true, sourceLineNo := s, targetLineNo := t }) :=
  ⟨by decide, by decide, by decide,
    claim_c3_amended "+foo" " foo bar" ["+foo"] "context" (by decide)
      (Or.inr (by decide)) (by decide) [] (by simp) "context" 1 1⟩

/-- C4 counterexample: calling `send_inline_comment` with `found = false` at
a concrete input returns normally with no discussion created — it does not
fail with a `NotFoundError` as the claim states. -/
theorem claim_c4_counterexample :
    sendInlineComment lastDiff8 "body" "context" false (some 1) file8 1 =
      Except.ok none ∧
    sendInlineComment lastDiff8 "body" "context" false (some 1) file8 1 ≠
      Except.error PyError.notFoundError := by
  exact ⟨by decide, by decide⟩

/-- C4 (amended): if `send_inline_comment` is invoked with `found = false`,
it logs and returns normally without raising, and produces no position
object and no published discussion. -/
theorem claim_c4_amended (lastDiff : LastDiff) (body editType : String)
    (sourceLineNo : Option Int) (targetFile : FilePatchInfo) (targetLineNo : Int) :
    sendInlineComment lastDiff body editType false sourceLineNo targetFile targetLineNo =
      Except.ok none := by
  simp [sendInlineComment]

/-- C5 (confirmed): for every found match (with an integer source line and a
genuine, nonempty old filename when renamed), the built position carries only
`new_line = target - 1` for addition, only `old_line = source - 1` for
deletion, and both for any other edit type; `old_path` is the old filename
when one is recorded (rename) and the new path otherwise.  For the §8
addition match (target line 3), the built position has `new_line = 2` and no
`old_line`. -/
theorem claim_c5 (lastDiff : LastDiff) (body editType : String) (src : Int)
    (targetFile : FilePatchInfo) (tgt : Int)
    (hold : ∀ o, targetFile.old_filename = some o → o ≠ "") :
    (∃ p : DiscussionPayload,
      sendInlineComment lastDiff body editType true (some src) targetFile tgt =
        Except.ok (some p) ∧
      (editType = "addition" →
        p.position.new_line = some (tgt - 1) ∧ p.position.old_line = none) ∧
      (editType = "deletion" →
        p.position.old_line = some (src - 1) ∧ p.position.new_line = none) ∧
      (editType ≠ "addition" → editType ≠ "deletion" →
        p.position.old_line = some (src - 1) ∧ p.position.new_line = some (tgt - 1)) ∧
      p.position.new_path = targetFile.filename ∧
      p.position.old_path = targetFile.old_filename.getD targetFile.filename) ∧
    (sendInlineComment lastDiff8 "body" "addition" true (some 3) file8 3 =
        Except.ok (some payload8) ∧
      payload8.position.new_line = some 2 ∧ payload8.position.old_line = none) := by
  constructor
  · have hpath : (match targetFile.old_filename with
        | some o => if o = "" then targetFile.filename else o
        | none => targetFile.filename) =
        targetFile.old_filename.getD targetFile.filename := by
      cases hof : targetFile.old_filename with
      | none => rfl
      | some o => simp [hold o hof]
    by_cases hdel : editType = "deletion"
    · subst hdel
      exact ⟨_, rfl, fun h => absurd h (by decide), fun _ => ⟨rfl, rfl⟩,
        fun _ h => absurd rfl h, rfl, hpath⟩
    · by_cases hadd : editType = "addition"
      · subst hadd
        exact ⟨_, rfl, fun _ => ⟨rfl, rfl⟩, fun h => absurd h (by decide),
          fun h _ => absurd rfl h, rfl, hpath⟩
      · refine ⟨{ body := body, position :=
            { position_type := "text", new_path := targetFile.filename,
              old_path := match targetFile.old_filename with
                | some o => if o = "" then targetFile.filename else o
                | none => targetFile.filename,
              base_sha := lastDiff.base_commit_sha, start_sha := lastDiff.start_commit_sha,
              head_sha := lastDiff.head_commit_sha, old_line := some (src - 1),
              new_line := some (tgt - 1) } }, ?_, ?_, ?_, ?_, ?_, ?_⟩
        · simp [sendInlineComment, hdel, hadd]
        · intro h; exact absurd h hadd
        · intro h; exact absurd h hdel
        · intro _ _; exact ⟨rfl, rfl⟩
        · rfl
        · exact hpath
  · exact ⟨by decide, by decide, by decide⟩

/-- C5 witness: the general invariant applied to the §8 file (no rename)
for the addition edit type at source 3, target 3. -/
theorem claim_c5_witness :
    (∀ o, file8.old_filename = some o → o ≠ "") ∧
    ((∃ p : DiscussionPayload,
      sendInlineComment lastDiff8 "b" "addition" true (some 3) file8 3 =
        Except.ok (some p) ∧
      ("addition" = "addition" →
        p.position.new_line = some (3 - 1) ∧ p.position.old_line = none) ∧
      ("addition" = "deletion" →
        p.position.old_line = some (3 - 1) ∧ p.position.new_line = none) ∧
      ("addition" ≠ "addition" → "addition" ≠ "deletion" →
        p.position.old_line = some (3 - 1) ∧ p.position.new_line = some (3 - 1)) ∧
      p.position.new_path = file8.filename ∧
      p.position.old_path = file8.old_filename.getD file8.filename) ∧
    (sendInlineComment lastDiff8 "body" "addition" true (some 3) file8 3 =
        Except.ok (some payload8) ∧
      payload8.position.new_line = some 2 ∧ payload8.position.old_line = none)) :=
  ⟨fun o ho => by simp [file8] at ho,
    claim_c5 lastDiff8 "b" "addition" 3 file8 3 (fun o ho => by simp [file8] at ho)⟩

/-- Helper: the `search_line` loop leaves its accumulator untouched when no
file of the catalog has the requested filename. -/
theorem searchLoop_no_match (relevantFile relevantLine : String)
    (dfs : List FilePatchInfo) (acc : Option FindResult)
    (h : ∀ f ∈ dfs, f.filename ≠ relevantFile) :
    searchLoop relevantFile relevantLine dfs acc = .ok acc := by
  induction dfs generalizing acc with
  | nil => rfl
  | cons f rest ih =>
    have hf := h f (List.mem_cons_self _ _)
    simp [searchLoop, hf, ih _ (fun g hg => h g (List.mem_cons_of_mem _ hg))]

/-- C6 (confirmed): when no entry of the catalog has the requested filename,
`search_line` does not return a `found = false` result — it raises
(`IndexError` from `get_edit_type` on an empty reference, otherwise
`UnboundLocalError` at the `return` reading never-assigned locals). -/
theorem claim_c6 (diffFiles : List FilePatchInfo) (relevantFile relevantLine : String)
    (h : ∀ f ∈ diffFiles, f.filename ≠ relevantFile) :
    ∃ e, searchLine diffFiles relevantFile relevantLine = Except.error e := by
  cases hd : relevantLine.data with
  | nil => exact ⟨.indexError, by simp [searchLine, getEditType, hd]⟩
  | cons c cs =>
    exact ⟨.unboundLocal,
      by simp [searchLine, getEditType, hd, searchLoop_no_match _ _ _ _ h]⟩

/-- C6 witness: a one-file catalog not containing the requested path. -/
theorem claim_c6_witness :
    (∀ f ∈ [file8], f.filename ≠ "other.py") ∧
    ∃ e, searchLine [file8] "other.py" "x" = Except.error e :=
  ⟨by decide, claim_c6 [file8] "other.py" "x" (by decide)⟩

/-- C7 counterexample: with two catalog entries sharing the path `"a.py"`
and the empty reference text, `search_line` raises `IndexError` from
`get_edit_type` before scanning any file, instead of returning the locate
result of the last matching entry (which is a normal result). -/
theorem claim_c7_counterexample :
    dupFirst.filename = "a.py" ∧ dupLast.filename = "a.py" ∧
    searchLine [dupFirst, dupLast] "a.py" "" = Except.error PyError.indexError ∧
    findInFile dupLast "" =
      Except.ok { editType := "context", found := true, sourceLineNo := 2,
                  targetFile := dupLast, targetLineNo := 2 } ∧
    searchLine [dupFirst, dupLast] "a.py" "" ≠ findInFile dupLast "" := by
  exact ⟨by decide, by decide, by decide, by decide, by decide⟩

/-- C7 (amended): whenever the reference text is nonempty and `locate`
returns normally on every earlier same-named entry, `search_line` on a
catalog whose last entry with the requested filename is `f` returns exactly
`find_in_file f reference` (each matching entry overwrites the result
tuple, so the last one wins). -/
theorem claim_c7_amended (pre post : List FilePatchInfo) (f : FilePatchInfo)
    (relevantFile relevantLine : String)
    (hf : f.filename = relevantFile)
    (hpost : ∀ g ∈ post, g.filename ≠ relevantFile)
    (hrl : relevantLine ≠ "")
    (hpre : ∀ g ∈ pre, g.filename = relevantFile →
      ∃ r, findInFile g relevantLine = .ok r) :
    searchLine (pre ++ f :: post) relevantFile relevantLine =
      findInFile f relevantLine := by
  obtain ⟨c, cs, hd⟩ : ∃ c cs, relevantLine.data = c :: cs := by
    cases hrl2 : relevantLine.data with
    | nil =>
      exact absurd (by cases relevantLine with
        | mk d => cases d with
          | nil => rfl
          | cons a as => exact absurd hrl2 (by simp)) hrl
    | cons c cs => exact ⟨c, cs, rfl⟩
  have hloop : ∀ acc, searchLoop relevantFile relevantLine (pre ++ f :: post) acc =
      (match findInFile f relevantLine with
       | .error e => .error e
       | .ok r => .ok (some r)) := by
    induction pre with
    | nil =>
      intro acc
      cases hr : findInFile f relevantLine with
      | error e => simp [searchLoop, hf, hr]
      | ok r => simp [searchLoop, hf, hr, searchLoop_no_match _ _ _ _ hpost]
    | cons g gs ih =>
      intro acc
      have hgs : ∀ q ∈ gs, q.filename = relevantFile →
          ∃ r, findInFile q relevantLine = .ok r :=
        fun q hq => hpre q (List.mem_cons_of_mem _ hq)
      by_cases hg : g.filename = relevantFile
      · obtain ⟨r, hr⟩ := hpre g (List.mem_cons_self _ _) hg
        simpa [searchLoop, hg, hr] using ih hgs (some r)
      · simpa [searchLoop, hg] using ih hgs acc
    
  rw [searchLine]
  simp only [getEditType, hd]
  rw [hloop none]
  cases hr : findInFile f relevantLine with
  | error e => simp
  | ok r => simp

/-- C7 witness: a two-entry catalog whose entries share the path `"w.py"`;
`search_line` returns the locate result of the last entry. -/
theorem claim_c7_witness :
    dupWitnessFile.filename = "w.py" ∧ ("q" : String) ≠ "" ∧
    searchLine [dupFirstW, dupWitnessFile] "w.py" "q" =
      findInFile dupWitnessFile "q" :=
  ⟨by decide, by decide,
    claim_c7_amended [dupFirstW] [] dupWitnessFile "w.py" "q" (by decide)
      (by simp) (by decide)
      (fun g hg _ => by
        simp only [List.mem_singleton] at hg
        exact ⟨{ editType := "context", found := false, sourceLineNo := 0,
                 targetFile := dupFirstW, targetLineNo := 0 }, by rw [hg]; decide⟩)⟩

/-- C8 (confirmed): `publish_code_suggestions` isolates failures per item:
when processing one suggestion raises, the exception is caught and logged
inside the loop and every suggestion before and after it in the batch is
still attempted with an outcome of its own. -/
theorem claim_c8 (lastDiff : LastDiff) (diffFiles : List FilePatchInfo)
    (pre post : List Suggestion) (sug : Suggestion) (e : PyError)
    (h : processSuggestion lastDiff diffFiles sug = .error e) :
    publishCodeSuggestions lastDiff diffFiles (pre ++ sug :: post) =
      publishCodeSuggestions lastDiff diffFiles pre ++
        ItemOutcome.errorLogged e :: publishCodeSuggestions lastDiff diffFiles post := by
  induction pre with
  | nil => simp [publishCodeSuggestions, h]
  | cons s2 rest ih => simp [publishCodeSuggestions, ih]

/-- C8 witness: a batch of two copies of a raising suggestion (its file is
absent from the catalog); both items get a logged-error outcome. -/
theorem claim_c8_witness :
    processSuggestion lastDiff8 [] badSuggestion = Except.error PyError.attributeError ∧
    publishCodeSuggestions lastDiff8 [] ([] ++ badSuggestion :: [badSuggestion]) =
      publishCodeSuggestions lastDiff8 [] [] ++
        ItemOutcome.errorLogged PyError.attributeError ::
          publishCodeSuggestions lastDiff8 [] [badSuggestion] :=
  ⟨by decide,
    claim_c8 lastDiff8 [] [] [badSuggestion] badSuggestion PyError.attributeError (by decide)⟩

/-- C10 (confirmed): every discussion actually published for a suggestion
carries the suggestion body with each occurrence of the fenced marker
rewritten to `suggestion:-0+N`, `N = relevant_lines_end -
relevant_lines_start` (no `+1` adjustment). -/
theorem claim_c10 (lastDiff : LastDiff) (diffFiles : List FilePatchInfo)
    (sug : Suggestion) (p : DiscussionPayload)
    (h : processSuggestion lastDiff diffFiles sug = .ok (some p)) :
    p.body = pyReplaceS sug.body "```suggestion"
      ("```suggestion:-0+" ++
        toString (sug.relevant_lines_end - sug.relevant_lines_start)) := by
  unfold processSuggestion at h
  cases hft : diffFiles.find? (fun file => file.filename = sug.relevant_file) with
  | none =>
    simp only [hft] at h
    exact (Except.noConfusion h)
  | some tf =>
    simp only [hft] at h
    cases hpg : pyListGet (pySplitlines tf.head_file) (sug.relevant_lines_start - 1) with
    | error e2 =>
      simp only [hpg] at h
      exact (Except.noConfusion h)
    | ok rl =>
      simp only [hpg, sendInlineComment, Bool.not_true, Bool.false_eq_true, if_false] at h
      rw [if_neg (by decide : ¬("addition" = "deletion"))] at h
      simp only [if_true] at h
      simp only [Except.ok.injEq, Option.some.injEq] at h
      rw [← h]

/-- C10 witness: a successfully published suggestion spanning lines 1-3;
the single marker occurrence becomes `suggestion:-0+2`. -/
theorem claim_c10_witness :
    processSuggestion lastDiff8 [suggestionFile] suggestion10 =
      Except.ok (some payload10) ∧
    payload10.body = pyReplaceS suggestion10.body "```suggestion"
      ("```suggestion:-0+" ++
        toString (suggestion10.relevant_lines_end - suggestion10.relevant_lines_start)) :=
  ⟨by decide,
    claim_c10 lastDiff8 [suggestionFile] suggestion10 payload10 (by decide)⟩

/-- C4 witness: the amended behaviour at a concrete not-found call. -/
theorem claim_c4_witness :
    sendInlineComment lastDiff8 "b" "addition" false none file8 2 = Except.ok none :=
  claim_c4_amended lastDiff8 "b" "addition" none file8 2

/-- C9 witness: the classification precedence at the all-true flags. -/
theorem claim_c9_witness :
    classifyFile true true true = EDIT_TYPE.ADDED ∧
    classifyFile false true true = EDIT_TYPE.DELETED ∧
    classifyFile false false true = EDIT_TYPE.RENAMED ∧
    classifyFile false false false = EDIT_TYPE.MODIFIED ∧
    classifyFile true true true = EDIT_TYPE.ADDED :=
  claim_c9 true true
